import Mathlib

/-!
Shallow embedding of the caching layer of the property-listing service
(properties/utils.py, properties/signals.py, properties/models.py,
properties/views.py), together with theorems checking the frozen claims of
the natural-language specification against it.

Modelling conventions:
  - The Django cache (django-redis backend) is an association list of entries
    (key, value, ttl); a ttl of none models timeout=None (persistent).
  - Python numbers that reach the key formatter are modelled by PyNum, which
    records both the numeric value and the literal form (int vs float of
    integral value), since Python f-strings interpolate str() of the object.
  - Django querysets are modelled by QuerySet: the query description plus the
    optional result cache that list(queryset) populates; an unevaluated
    queryset has result_cache = none and re-executes its query when iterated.
  - Strings are treated at ASCII granularity (Char.toLower), which covers all
    string data appearing in the source and its tests.
-/

/-- A row of the properties table, restricted to the fields the caching core
reads (identity, filter columns, ordering columns). -/
structure PropertyRec where
  id : Nat
  title : String
  price : ℚ
  location : String
  created_at : Nat
deriving DecidableEq, Repr

/-- The relational store backing Property.objects. -/
abbrev Database := List PropertyRec

/-- A Python numeric argument as it reaches an f-string: the integer literal
form or a float of integral value (the forms used at every call site of the
price-range query). -/
inductive PyNum
  | int (n : ℤ)
  | float (n : ℤ)
deriving DecidableEq, Repr

/-- Numeric value of a PyNum, used by the price filter (price__gte/price__lte
compare values, not literal forms). -/
def PyNum.val : PyNum → ℚ
  | .int n => (n : ℚ)
  | .float n => (n : ℚ)

/-- Python str() of the number: str(0) is the string 0, str(0.0) appends the
trailing .0 of the float repr. -/
def PyNum.pyStr : PyNum → String
  | .int n => toString n
  | .float n => toString n ++ ".0"

/-- Case-insensitive substring test over character lists (the semantics of the
icontains lookup). -/
def charsInfix (needle : List Char) : List Char → Bool
  | [] => needle.isEmpty
  | c :: t => needle.isPrefixOf (c :: t) || charsInfix needle t

/-- location__icontains=needle: case-insensitive containment. -/
def icontains (hay needle : String) : Bool :=
  charsInfix (needle.data.map Char.toLower) (hay.data.map Char.toLower)

/-- Insertion into a list sorted by the boolean relation le. -/
def insertBy (le : PropertyRec → PropertyRec → Bool) (a : PropertyRec) :
    List PropertyRec → List PropertyRec
  | [] => [a]
  | b :: t => if le a b then a :: b :: t else b :: insertBy le a t

/-- Insertion sort by the boolean relation le (a stable total order suffices
to model order_by). -/
def sortRows (le : PropertyRec → PropertyRec → Bool) (l : List PropertyRec) :
    List PropertyRec :=
  l.foldr (insertBy le) []

/-- order_by(-created_at): newest first. -/
def byCreatedDesc (p q : PropertyRec) : Bool := decide (q.created_at ≤ p.created_at)

/-- order_by(price): cheapest first. -/
def byPriceAsc (p q : PropertyRec) : Bool := decide (p.price ≤ q.price)

/-- The three query shapes the read-through cache serves. -/
inductive QueryDesc
  | allProps
  | byLocation (location : String)
  | byPriceRange (min_price max_price : PyNum)
deriving DecidableEq, Repr

/-- Execution of a query against the database: the filter and ordering each
shape carries in the source (Property.objects.all().order_by(-created_at),
filter(location__icontains=...).order_by(-created_at),
filter(price__gte=..., price__lte=...).order_by(price)). -/
def evalQuery (db : Database) : QueryDesc → List PropertyRec
  | .allProps => sortRows byCreatedDesc db
  | .byLocation loc => sortRows byCreatedDesc (db.filter (fun p => icontains p.location loc))
  | .byPriceRange mn mx =>
      sortRows byPriceAsc
        (db.filter (fun p => decide (mn.val ≤ p.price) && decide (p.price ≤ mx.val)))

/-- A Django queryset object: its query plus the internal result cache that
iteration populates. result_cache = none is a lazy queryset that re-executes
its query when read. -/
structure QuerySet where
  query : QueryDesc
  result_cache : Option (List PropertyRec)
deriving DecidableEq, Repr

/-- The metadata sidecar record written next to the all_properties entry. -/
structure CacheMetadata where
  cached_at : String
  count : Nat
  fetch_time : ℚ
  source : String
deriving DecidableEq, Repr

/-- The invalidation event dictionary stored under last_cache_invalidation. -/
structure InvalidationEvent where
  property_id : Nat
  property_title : String
  action : String
  cache_keys_deleted : List String
  timestamp : Option String
deriving DecidableEq, Repr

/-- A metrics history sample, as stored by _store_metrics_history. -/
structure MetricsSample where
  timestamp : String
  hit_percentage : ℚ
  hits : Nat
  misses : Nat
  keys_count : Nat
  connected_clients : Nat
deriving DecidableEq, Repr

/-- The values the property code stores in the cache. -/
inductive CacheVal
  | qs (q : QuerySet)
  | meta (m : CacheMetadata)
  | event (e : InvalidationEvent)
  | nat (n : Nat)
  | prop (p : PropertyRec)
  | history (h : List MetricsSample)
deriving DecidableEq, Repr

/-- True when the value is a queryset whose result cache is unpopulated: a
lazy query object, not a materialized collection. -/
def CacheVal.isLazyQuery : CacheVal → Bool
  | .qs q => q.result_cache.isNone
  | _ => false

/-- One cache entry: key, stored value, and ttl (none models timeout=None). -/
structure Entry where
  key : String
  val : CacheVal
  ttl : Option Nat
deriving DecidableEq, Repr

/-- The cache key/value store. -/
abbrev Cache := List Entry

/-- cache.get(key): first entry with the key, if any. -/
def cache_get : Cache → String → Option CacheVal
  | [], _ => none
  | e :: t, k => if e.key == k then some e.val else cache_get t k

/-- ttl of the entry stored under the key, if present. -/
def cache_ttlOf : Cache → String → Option (Option Nat)
  | [], _ => none
  | e :: t, k => if e.key == k then some e.ttl else cache_ttlOf t k

/-- cache.set(key, value, timeout): replaces any entry under the key. -/
def cache_set (c : Cache) (k : String) (v : CacheVal) (t : Option Nat) : Cache :=
  ⟨k, v, t⟩ :: c.filter (fun e => !(e.key == k))

/-- cache.delete(key): returns whether an entry was present, plus the shrunk
cache. -/
def cache_delete (c : Cache) (k : String) : Bool × Cache :=
  ((cache_get c k).isSome, c.filter (fun e => !(e.key == k)))

/-- Glob match for the pattern forms used by the source: a trailing star is a
prefix pattern, anything else matches exactly. -/
def matchPat (pat key : String) : Bool :=
  match pat.data.getLast? with
  | some ch => if ch = '*' then pat.data.dropLast.isPrefixOf key.data else pat == key
  | none => pat == key

/-- cache.keys(pattern): the keys of the matching entries. -/
def cache_keys (c : Cache) (pat : String) : List String :=
  (c.filter (fun e => matchPat pat e.key)).map (fun e => e.key)

/-- Membership of a key in a key list. -/
def strListContains (ks : List String) (k : String) : Bool :=
  ks.any (fun x => x == k)

/-- cache.delete_many(keys). -/
def cache_delete_many (c : Cache) (ks : List String) : Cache :=
  c.filter (fun e => !(strListContains ks e.key))

/-- The empty cache. -/
def emptyCache : Cache := []

/-- Key of the by-location query, as built at utils.py line 90: the location is
lower-cased and spaces become underscores. -/
def locationKey (location : String) : String :=
  "properties_location_" ++
    String.mk (location.data.map (fun ch =>
      if ch.toLower = ' ' then '_' else ch.toLower))

/-- Key of the by-price-range query, as built at utils.py line 122: the raw
arguments are interpolated through str() with no canonicalization. -/
def priceRangeKey (mn mx : PyNum) : String :=
  "properties_price_" ++ mn.pyStr ++ "_" ++ mx.pyStr

/-!
Read-through operations (properties/utils.py). Each returns the value handed
back to the caller together with the cache afterwards. The wall-clock reads
(datetime.now, the fetch duration) only flow into the metadata record and are
passed as parameters now and fetch_time.

utils.py holds two def get_all_properties: the first is a bare pass stub at
line 10 that the second, real definition at line 13 immediately rebinds, so
the effective function is the one embedded here.
-/

/-- get_all_properties (utils.py lines 13-77): read-through for the
all-entities shape. On a miss the queryset is forcibly evaluated by
list(queryset) - which populates its result cache - before the queryset
object is stored under all_properties with ttl 3600, followed by the metadata
sidecar under all_properties_meta with the same ttl. -/
def get_all_properties (db : Database) (now : String) (fetch_time : ℚ)
    (c : Cache) : CacheVal × Cache :=
  let cache_key := "all_properties"
  match cache_get c cache_key with
  | some cached_data => (cached_data, c)
  | none =>
    let properties_list := evalQuery db .allProps
    let queryset : QuerySet := { query := .allProps, result_cache := some properties_list }
    let c := cache_set c cache_key (.qs queryset) (some 3600)
    let metadata : CacheMetadata :=
      { cached_at := now, count := properties_list.length,
        fetch_time := fetch_time, source := "database" }
    let c := cache_set c (cache_key ++ "_meta") (.meta metadata) (some 3600)
    (.qs queryset, c)

/-- get_properties_by_location (utils.py lines 80-108): on a miss the
un-evaluated queryset object is stored under the location key with ttl 1800;
no metadata sidecar is written and the queryset is never materialized before
storage. -/
def get_properties_by_location (_db : Database) (location : String)
    (c : Cache) : CacheVal × Cache :=
  let cache_key := locationKey location
  match cache_get c cache_key with
  | some cached_data => (cached_data, c)
  | none =>
    let queryset : QuerySet := { query := .byLocation location, result_cache := none }
    let c := cache_set c cache_key (.qs queryset) (some 1800)
    (.qs queryset, c)

/-- get_properties_by_price_range (utils.py lines 111-141): on a miss the
un-evaluated queryset object is stored under the price-range key with ttl
900; no metadata sidecar is written. -/
def get_properties_by_price_range (_db : Database) (min_price max_price : PyNum)
    (c : Cache) : CacheVal × Cache :=
  let cache_key := priceRangeKey min_price max_price
  match cache_get c cache_key with
  | some cached_data => (cached_data, c)
  | none =>
    let queryset : QuerySet :=
      { query := .byPriceRange min_price max_price, result_cache := none }
    let c := cache_set c cache_key (.qs queryset) (some 900)
    (.qs queryset, c)

/-!
Invalidation (properties/signals.py).
-/

/-- The entity fields the invalidation handlers read: id, title and the
updated_at timestamp (already rendered by isoformat). -/
structure Instance where
  id : Nat
  title : String
  updated_at : String
deriving DecidableEq, Repr

/-- A store-level operation in a mutation trace. -/
inductive Ev
  | dbWrite (desc : String)
  | commitVisible
  | rolledBack
  | cacheDel (key : String)
  | cacheSet (key : String)
deriving DecidableEq, Repr

/-- Operations that touch the property cache (deletions and writes performed
by the invalidation work). -/
def Ev.isCacheOp : Ev → Bool
  | .cacheDel _ => true
  | .cacheSet _ => true
  | _ => false

/-- The exact keys _clear_property_cache deletes. -/
def cache_keys_to_delete : List String := ["all_properties", "all_properties_meta"]

/-- The glob patterns _clear_property_cache sweeps. -/
def cache_patterns : List String :=
  ["properties_location_*", "properties_price_*", "property_*"]

/-- The exact-key delete loop of _clear_property_cache: for each key, delete
it and record it when it was present. -/
def deleteExactLoop (c : Cache) : Cache × List String :=
  cache_keys_to_delete.foldl
    (fun acc k =>
      let r := cache_delete acc.1 k
      (r.2, if r.1 then acc.2 ++ [k] else acc.2))
    (c, [])

/-- One iteration of the pattern loop: enumerate the matching keys and, when
there are any, bulk-delete them and record them. -/
def sweepStep (acc : Cache × List String) (pat : String) : Cache × List String :=
  let ks := cache_keys acc.1 pat
  if ks.isEmpty then acc else (cache_delete_many acc.1 ks, acc.2 ++ ks)

/-- The pattern sweep over the three patterns. -/
def patternSweep (c : Cache) : Cache × List String :=
  cache_patterns.foldl sweepStep (c, [])

/-- The action label recorded in the invalidation event (signals.py lines
106-108). -/
def action_type (created is_delete is_m2m_change : Bool) : String :=
  let base := if created then "created" else if is_delete then "deleted" else "updated"
  if is_m2m_change then "M2M relationship changed" else base

/-- Result of one run of _clear_property_cache: the cache afterwards, the
deleted-key log, and the store operations in execution order. -/
structure ClearResult where
  cache : Cache
  deleted_keys : List String
  events : List Ev
deriving Repr

/-- The deletion phase of _clear_property_cache: the exact-key loop followed,
when the backend supports key enumeration, by the pattern sweep. When it does
not, cache.keys raises AttributeError on the first pattern, the except
AttributeError arm logs and skips the whole sweep, and execution continues
with only the exact-key deletions recorded. -/
def clearDeletePhase (supports_patterns : Bool) (c : Cache) : Cache × List String :=
  let r1 := deleteExactLoop c
  if supports_patterns then
    let s := patternSweep r1.1
    (s.1, r1.2 ++ s.2)
  else
    r1

/-- _clear_property_cache (signals.py lines 59-130): the deletion phase, then
the event is stored under last_cache_invalidation (ttl 3600) and the counter
under cache_invalidation_count (timeout=None) is re-read and incremented. -/
def _clear_property_cache (supports_patterns : Bool) (inst : Instance)
    (created is_delete is_m2m_change : Bool) (c : Cache) : ClearResult :=
  let r2 := clearDeletePhase supports_patterns c
  let ev : InvalidationEvent :=
    { property_id := inst.id, property_title := inst.title,
      action := action_type created is_delete is_m2m_change,
      cache_keys_deleted := r2.2,
      timestamp := some inst.updated_at }
  let c3 := cache_set r2.1 "last_cache_invalidation" (.event ev) (some 3600)
  let invalidation_count : Nat :=
    match cache_get c3 "cache_invalidation_count" with
    | some (.nat m) => m
    | _ => 0
  let c4 := cache_set c3 "cache_invalidation_count" (.nat (invalidation_count + 1)) none
  { cache := c4,
    deleted_keys := r2.2,
    events := r2.2.map Ev.cacheDel ++
      [Ev.cacheSet "last_cache_invalidation", Ev.cacheSet "cache_invalidation_count"] }

/-- The invalidation counter as read back by get_cache_invalidation_stats. -/
def invalidationCount (c : Cache) : Nat :=
  match cache_get c "cache_invalidation_count" with
  | some (.nat m) => m
  | _ => 0

/-- The exact-key deletions that succeed on a given cache: each of the two
fixed keys, when present. -/
def exact_deleted (c : Cache) : List String :=
  (if (cache_get c "all_properties").isSome then ["all_properties"] else []) ++
  (if (cache_get c "all_properties_meta").isSome then ["all_properties_meta"] else [])

/-- The mutation kinds the signal receivers handle: post_save (with the
created flag), post_delete, and m2m_changed (with its action string). -/
inductive MutKind
  | save (created : Bool)
  | del
  | m2m (action : String)
deriving DecidableEq, Repr

/-- Row-write label of each mutation kind. -/
def kindDesc : MutKind → String
  | .save _ => "post_save"
  | .del => "post_delete"
  | .m2m _ => "m2m_changed"

/-- The invalidation callbacks each receiver registers through
transaction.on_commit. invalidate_cache_on_save and invalidate_cache_on_delete
(signals.py lines 11-40) register unconditionally; invalidate_cache_on_m2m_change
(lines 42-57) registers only for the three post actions. The second post_save
receiver handle_bulk_operations is a pass body and contributes nothing. -/
def signalCallbacks (kind : MutKind) (supports_patterns : Bool) (inst : Instance)
    (c : Cache) : List (List Ev) :=
  match kind with
  | .save created => [(_clear_property_cache supports_patterns inst created false false c).events]
  | .del => [(_clear_property_cache supports_patterns inst false true false c).events]
  | .m2m action =>
      if (["post_add", "post_remove", "post_clear"].contains action) then
        [(_clear_property_cache supports_patterns inst false false true c).events]
      else []

/-- Modelled from the spec: the Commit hook external interface of section 6
(Django transaction.on_commit, outside src/) - callbacks scheduled during the
mutation run strictly after the commit is durably visible, and are discarded
when the mutation rolls back. -/
def runTransaction (body : List Ev) (cbs : List (List Ev)) (commits : Bool) : List Ev :=
  if commits then body ++ Ev.commitVisible :: cbs.flatten else body ++ [Ev.rolledBack]

/-- Store-operation trace of one signal-driven mutation: the row write inside
the transaction, then either the commit marker followed by the registered
invalidation callbacks, or the rollback marker. -/
def signalMutationTrace (kind : MutKind) (supports_patterns : Bool) (inst : Instance)
    (c : Cache) (commits : Bool) : List Ev :=
  runTransaction [Ev.dbWrite (kindDesc kind)]
    (signalCallbacks kind supports_patterns inst c) commits

/-- Trace of Property.bulk_create_with_cache_invalidation (models.py lines
161-182): it deletes the all_properties key first, then performs the bulk
insert, whose commit becomes visible afterwards. -/
def bulk_create_trace : List Ev :=
  [Ev.cacheDel "all_properties", Ev.dbWrite "bulk_create", Ev.commitVisible]

/-!
Metrics (second half of properties/utils.py).
-/

/-- The fields of the Redis INFO reply that get_redis_cache_metrics reads. -/
structure RedisInfo where
  keyspace_hits : Nat
  keyspace_misses : Nat
  used_memory : Nat
  connected_clients : Nat
  uptime_in_seconds : Nat
deriving DecidableEq, Repr

/-- The slice of the metrics dictionary relevant to the hit-ratio claim. -/
structure MetricsDict where
  status : String
  message : String
  hits : Nat
  misses : Nat
  hit_percentage : ℚ
  total_operations : Nat
deriving DecidableEq, Repr

/-- A Python return value of the metrics collector: None, a bare int, or the
metrics dictionary. -/
inductive PyRet
  | pynone
  | pyint (n : Nat)
  | pydict (m : MetricsDict)
deriving DecidableEq, Repr

/-- Round to four decimal places (the round(x, 4) call; Python rounds ties to
even, which differs from this only on exact half-way values that no ratio of
the form hits/total attains at four decimals of interest here). -/
def roundTo4 (q : ℚ) : ℚ := (round (q * 10000) : ℚ) / 10000

/-- Round to two decimal places (the round(x, 2) call). -/
def roundTo2 (q : ℚ) : ℚ := (round (q * 100) : ℚ) / 100

/-- The hit-ratio computation inside the first get_redis_cache_metrics body
(utils.py line 323): hits / total when total is positive, else 0. -/
def hit_ratio_calc (hits misses : Nat) : ℚ :=
  if hits + misses > 0 then (hits : ℚ) / ((hits : ℚ) + (misses : ℚ)) else 0

/-- First def get_redis_cache_metrics (utils.py lines 282-371). With no Redis
client it returns the error dictionary from inside the try block. With a
client it builds the success dictionary - whose hit_ratio field is
hit_ratio_calc - but then falls through to the trailing lines 369-370
(total_requests = 0 followed by return total_requests if total_requests > 0
else 0), so the built dictionary is discarded and the int 0 is returned; the
final return metrics at line 371 is unreachable. -/
def get_redis_cache_metrics_v1 (conn : Option RedisInfo) : PyRet :=
  match conn with
  | none =>
      .pydict { status := "error", message := "Could not connect to Redis",
                hits := 0, misses := 0, hit_percentage := 0, total_operations := 0 }
  | some info =>
      let hits := info.keyspace_hits
      let misses := info.keyspace_misses
      let total_ops := hits + misses
      let ratio := hit_ratio_calc hits misses
      let metrics : MetricsDict :=
        { status := "success", message := "",
          hits := hits, misses := misses,
          hit_percentage := roundTo2 (ratio * 100),
          total_operations := total_ops }
      let _unused_hit_ratio_field := roundTo4 ratio
      let _discarded := metrics
      .pyint 0

/-- Second def get_redis_cache_metrics (utils.py lines 373-374): a bare pass
body, so the module-level name is rebound to a function that returns None.
Every caller resolves this definition. -/
def get_redis_cache_metrics_effective : PyRet := .pynone

/-- Result of get_cache_metrics_trend. The message strings rendered with
one-decimal formatting are presentation only and not modelled. -/
inductive TrendResult
  | no_data
  | insufficient_data (average_hit_rate : ℚ)
  | success (trend : String) (trend_value : ℚ) (current_hit_rate : ℚ)
      (average_hit_rate : ℚ) (data_points : Nat)
deriving DecidableEq, Repr

/-- The history list read from the cache: the stored list, or the empty list
when the key is absent (the or [] default). The key is only ever written by
_store_metrics_history, which stores sample lists. -/
def readHistory (c : Cache) : List MetricsSample :=
  match cache_get c "cache_metrics_history" with
  | some (.history h) => h
  | _ => []

/-- get_cache_metrics_trend (utils.py lines 558-625): classify the difference
between the newest and oldest of the last ten samples. -/
def get_cache_metrics_trend (c : Cache) : TrendResult :=
  let history := readHistory c
  if history.isEmpty then .no_data
  else
    let recent := if history.length ≥ 10 then history.drop (history.length - 10) else history
    let hit_percentages := recent.map (fun entry => entry.hit_percentage)
    if hit_percentages.length < 2 then
      .insufficient_data (hit_percentages.sum / (hit_percentages.length : ℚ))
    else
      let first := hit_percentages.headD 0
      let last := hit_percentages.getLastD 0
      let trend_value := last - first
      let trend :=
        if trend_value > 5 then "improving_significantly"
        else if trend_value > 1 then "improving"
        else if trend_value < -5 then "declining_significantly"
        else if trend_value < -1 then "declining"
        else "stable"
      .success trend trend_value last
        (hit_percentages.sum / (hit_percentages.length : ℚ)) history.length

/-- A history sample carrying a given hit percentage, with the fields the
trend reader ignores zeroed. -/
def mkSample (q : ℚ) : MetricsSample :=
  { timestamp := "", hit_percentage := q, hits := 0, misses := 0,
    keys_count := 0, connected_clients := 0 }

/-- A cache holding exactly a metrics history with the given hit percentages
(the shape _store_metrics_history produces). -/
def mkHistoryCache (l : List ℚ) : Cache :=
  [⟨"cache_metrics_history", .history (l.map mkSample), none⟩]

/-!
The Property model (properties/models.py).
-/

/-- The Property instance fields the two save bodies touch. An unset
reference_number is the empty string (the CharField default), matching the
falsiness test if not self.reference_number. -/
structure PropertyFields where
  pk : Option Nat
  title : String
  price : ℚ
  location : String
  reference_number : String
  updated_at : Nat
deriving DecidableEq, Repr

/-- django.db.models.Model.save, as the two overrides invoke it: writes the
row, assigning the primary key when new and refreshing the auto_now
updated_at column; it does not touch price or reference_number. -/
def model_save (now fresh_pk : Nat) (p : PropertyFields) : PropertyFields :=
  { p with pk := some (p.pk.getD fresh_pk), updated_at := now }

/-- First def save in class Property (models.py lines 96-105): generates a
reference number when unset, clamps a negative price to zero, then calls the
parent save. fresh_ref stands for the uuid-derived string of
_generate_reference_number. -/
def Property_save_v1 (fresh_ref : String) (now fresh_pk : Nat)
    (p : PropertyFields) : PropertyFields :=
  let p := if p.reference_number = "" then { p with reference_number := fresh_ref } else p
  let p := if p.price < 0 then { p with price := 0 } else p
  model_save now fresh_pk p

/-- Second def save in class Property (models.py lines 132-149): logs, then
calls the parent save; no field adjustment. -/
def Property_save_v2 (now fresh_pk : Nat) (p : PropertyFields) : PropertyFields :=
  model_save now fresh_pk p

/-- The effective Property.save: the second def in the class body rebinds the
attribute, so instances dispatch to Property_save_v2 and the clamp and
reference-number logic of the first def never execute. -/
def Property_save (now fresh_pk : Nat) (p : PropertyFields) : PropertyFields :=
  Property_save_v2 now fresh_pk p

/-!
View-layer ttls (properties/views.py).
-/

/-- cache_page argument on the first PropertyListView.dispatch (views.py line
30): 60 * 5 seconds. -/
def PropertyListView_v1_dispatch_ttl : Nat := 60 * 5

/-- timeout of the properties_list cache.set in the first
PropertyListView.get_queryset (views.py line 42): 60 * 5 seconds. -/
def PropertyListView_v1_queryset_ttl : Nat := 60 * 5

/-- cache_page argument on the second PropertyListView.dispatch (views.py
line 96): 60 * 15 seconds. -/
def PropertyListView_v2_dispatch_ttl : Nat := 60 * 15

/-- The list-view page ttl in effect: the second class PropertyListView
statement (views.py line 87) rebinds the module name, and urls.py resolves
views.PropertyListView after the module body has run, so the route serves the
second definition. -/
def PropertyListView_effective_dispatch_ttl : Nat := PropertyListView_v2_dispatch_ttl

/-- cache_page argument on PropertyDetailView.dispatch (views.py line 50):
60 * 15 seconds. -/
def PropertyDetailView_dispatch_ttl : Nat := 60 * 15

/-- Property.objects lookup by primary key, as DetailView.get_object performs
it (a missing row raises Http404, modelled as none). -/
def fetch_by_id (db : Database) (pk : Nat) : Option PropertyRec :=
  db.find? (fun p => p.id == pk)

/-- PropertyDetailView.get_object (views.py lines 54-64): read-through for the
single-entity shape with ttl 60 * 15. -/
def PropertyDetailView_get_object (db : Database) (pk : Nat) (c : Cache) :
    Option (CacheVal × Cache) :=
  let cache_key := "property_" ++ toString pk
  match cache_get c cache_key with
  | some cached_property => some (cached_property, c)
  | none =>
    match fetch_by_id db pk with
    | some property_obj =>
        some (.prop property_obj,
          cache_set c cache_key (.prop property_obj) (some (60 * 15)))
    | none => none

/-!
Concrete fixtures used by counterexamples and witnesses.
-/

/-- A sample row. -/
def pEx : PropertyRec :=
  { id := 1, title := "Test Property", price := 100, location := "Lagos", created_at := 5 }

/-- A second sample row. -/
def pEx2 : PropertyRec :=
  { id := 2, title := "Second Property", price := 250, location := "Abuja", created_at := 9 }

/-- A sample database. -/
def dbEx : Database := [pEx, pEx2]

/-- A sample entity instance as the signal handlers see it. -/
def instEx : Instance := { id := 42, title := "Test Property", updated_at := "2026-01-01T00:00:00" }

/-- A sample cache holding one price-range entry, used to observe that the
degraded invalidation leaves pattern keys untouched. -/
def cacheEx : Cache :=
  [⟨"properties_price_0_100", .qs { query := .byPriceRange (.int 0) (.int 100), result_cache := none }, some 900⟩]

/-!
Lemmas about the cache operations.
-/

lemma cache_get_filter_eq {p : Entry → Bool} {k : String}
    (h : ∀ e : Entry, e.key = k → p e = true) :
    ∀ c : Cache, cache_get (List.filter p c) k = cache_get c k := by
  intro c
  induction c with
  | nil => rfl
  | cons e t ih =>
    by_cases hek : e.key = k
    · simp [List.filter_cons, h e hek, cache_get, hek, ih]
    · have hbk : (e.key == k) = false := beq_eq_false_iff_ne.mpr hek
      cases hpe : p e
      · simp [List.filter_cons, hpe, cache_get, hbk, ih]
      · simp [List.filter_cons, hpe, cache_get, hbk, ih]

lemma cache_get_filter_none {p : Entry → Bool} {k : String}
    (h : ∀ e : Entry, e.key = k → p e = false) :
    ∀ c : Cache, cache_get (List.filter p c) k = none := by
  intro c
  induction c with
  | nil => rfl
  | cons e t ih =>
    by_cases hek : e.key = k
    · simp [List.filter_cons, h e hek, ih]
    · have hbk : (e.key == k) = false := beq_eq_false_iff_ne.mpr hek
      cases hpe : p e
      · simp [List.filter_cons, hpe, ih]
      · simp [List.filter_cons, hpe, cache_get, hbk, ih]

lemma cache_get_absent_filter (p : Entry → Bool) {k : String} :
    ∀ c : Cache, cache_get c k = none → cache_get (List.filter p c) k = none := by
  intro c
  induction c with
  | nil => intro _; rfl
  | cons e t ih =>
    intro h
    cases hbk : (e.key == k) with
    | true => simp [cache_get, hbk] at h
    | false =>
      simp only [cache_get, hbk, if_false, Bool.false_eq_true] at h
      cases hpe : p e
      · simp [List.filter_cons, hpe, ih h]
      · simp [List.filter_cons, hpe, cache_get, hbk, ih h]

lemma cache_get_set_self (c : Cache) (k : String) (v : CacheVal) (t : Option Nat) :
    cache_get (cache_set c k v t) k = some v := by
  simp [cache_set, cache_get]

lemma cache_get_set_ne (c : Cache) (k : String) (v : CacheVal) (t : Option Nat)
    {k' : String} (h : k' ≠ k) :
    cache_get (cache_set c k v t) k' = cache_get c k' := by
  have hbk : (k == k') = false := beq_eq_false_iff_ne.mpr (Ne.symm h)
  simp only [cache_set, cache_get, hbk, if_false, Bool.false_eq_true]
  exact cache_get_filter_eq (by intro e he; simp [he, h]) c

lemma cache_ttl_filter_eq {p : Entry → Bool} {k : String}
    (h : ∀ e : Entry, e.key = k → p e = true) :
    ∀ c : Cache, cache_ttlOf (List.filter p c) k = cache_ttlOf c k := by
  intro c
  induction c with
  | nil => rfl
  | cons e t ih =>
    by_cases hek : e.key = k
    · simp [List.filter_cons, h e hek, cache_ttlOf, hek, ih]
    · have hbk : (e.key == k) = false := beq_eq_false_iff_ne.mpr hek
      cases hpe : p e
      · simp [List.filter_cons, hpe, cache_ttlOf, hbk, ih]
      · simp [List.filter_cons, hpe, cache_ttlOf, hbk, ih]

lemma cache_ttl_set_self (c : Cache) (k : String) (v : CacheVal) (t : Option Nat) :
    cache_ttlOf (cache_set c k v t) k = some t := by
  simp [cache_set, cache_ttlOf]

lemma cache_ttl_set_ne (c : Cache) (k : String) (v : CacheVal) (t : Option Nat)
    {k' : String} (h : k' ≠ k) :
    cache_ttlOf (cache_set c k v t) k' = cache_ttlOf c k' := by
  have hbk : (k == k') = false := beq_eq_false_iff_ne.mpr (Ne.symm h)
  simp only [cache_set, cache_ttlOf, hbk, if_false, Bool.false_eq_true]
  exact cache_ttl_filter_eq (by intro e he; simp [he, h]) c

lemma cache_keys_nil_of {c : Cache} {pat : String}
    (h : ∀ e ∈ c, matchPat pat e.key = false) : cache_keys c pat = [] := by
  have : List.filter (fun e => matchPat pat e.key) c = [] := by
    rw [List.filter_eq_nil_iff]
    intro e he
    simp [h e he]
  simp [cache_keys, this]

lemma mem_of_cache_keys {c : Cache} {pat k : String}
    (h : k ∈ cache_keys c pat) : matchPat pat k = true := by
  simp only [cache_keys, List.mem_map, List.mem_filter] at h
  obtain ⟨e, ⟨_, hm⟩, hk⟩ := h
  rw [← hk]; exact hm

lemma cache_keys_mem {c : Cache} {pat : String} {e : Entry}
    (he : e ∈ c) (hm : matchPat pat e.key = true) : e.key ∈ cache_keys c pat := by
  simp only [cache_keys, List.mem_map, List.mem_filter]
  exact ⟨e, ⟨he, hm⟩, rfl⟩

lemma strListContains_keys {c : Cache} {pat : String} {e : Entry} (he : e ∈ c) :
    strListContains (cache_keys c pat) e.key = matchPat pat e.key := by
  cases hm : matchPat pat e.key
  · rw [Bool.eq_false_iff]
    intro hcon
    simp only [strListContains, List.any_eq_true, beq_iff_eq] at hcon
    obtain ⟨x, hx, hxe⟩ := hcon
    rw [hxe] at hx
    rw [mem_of_cache_keys hx] at hm
    exact Bool.true_eq_false.mp hm
  · simp only [strListContains, List.any_eq_true, beq_iff_eq]
    exact ⟨e.key, cache_keys_mem he hm, rfl⟩

lemma sweepStep_eq (c : Cache) (ds : List String) (pat : String) :
    sweepStep (c, ds) pat =
      (List.filter (fun e => !(matchPat pat e.key)) c, ds ++ cache_keys c pat) := by
  unfold sweepStep
  by_cases h : (cache_keys c pat).isEmpty
  · have hnil : cache_keys c pat = [] := by
      cases hk : cache_keys c pat
      · rfl
      · rw [hk] at h; simp at h
    have hall : ∀ e ∈ c, matchPat pat e.key = false := by
      intro e he
      cases hm : matchPat pat e.key
      · rfl
      · have := cache_keys_mem he hm
        rw [hnil] at this
        exact absurd this (List.not_mem_nil _)
    have hfil : List.filter (fun e => !(matchPat pat e.key)) c = c := by
      rw [List.filter_eq_self]
      intro e he
      simp [hall e he]
    simp [h, hnil, hfil]
  · simp only [h, if_false, Bool.false_eq_true]
    refine Prod.ext ?_ rfl
    show cache_delete_many c (cache_keys c pat) = _
    unfold cache_delete_many
    apply List.filter_congr
    intro e he
    rw [strListContains_keys he]

lemma patternSweep_eq (c : Cache) :
    patternSweep c =
      (((c.filter (fun e => !(matchPat "properties_location_*" e.key))).filter
          (fun e => !(matchPat "properties_price_*" e.key))).filter
          (fun e => !(matchPat "property_*" e.key)),
       cache_keys c "properties_location_*" ++
         (cache_keys (c.filter (fun e => !(matchPat "properties_location_*" e.key)))
            "properties_price_*" ++
          cache_keys ((c.filter (fun e => !(matchPat "properties_location_*" e.key))).filter
              (fun e => !(matchPat "properties_price_*" e.key))) "property_*")) := by
  unfold patternSweep cache_patterns
  simp only [List.foldl_cons, List.foldl_nil]
  rw [sweepStep_eq, sweepStep_eq, sweepStep_eq]
  simp [List.append_assoc]

lemma deleteExactLoop_eq (c : Cache) :
    deleteExactLoop c =
      ((c.filter (fun e => !(e.key == "all_properties"))).filter
          (fun e => !(e.key == "all_properties_meta")),
       exact_deleted c) := by
  unfold deleteExactLoop cache_keys_to_delete exact_deleted
  simp only [List.foldl_cons, List.foldl_nil, cache_delete]
  have h2 : cache_get (c.filter (fun e => !(e.key == "all_properties")))
      "all_properties_meta" = cache_get c "all_properties_meta" :=
    cache_get_filter_eq (by intro e he; simp [he]) c
  rw [h2]
  cases b1 : (cache_get c "all_properties").isSome <;>
    cases b2 : (cache_get c "all_properties_meta").isSome <;> simp [b1, b2]

/-!
Characterization of _clear_property_cache.
-/

lemma clearDeletePhase_fst_false (c : Cache) :
    (clearDeletePhase false c).1 =
      (c.filter (fun e => !(e.key == "all_properties"))).filter
        (fun e => !(e.key == "all_properties_meta")) := by
  simp only [clearDeletePhase, Bool.false_eq_true, if_false]
  rw [deleteExactLoop_eq]

lemma clearDeletePhase_fst_true (c : Cache) :
    (clearDeletePhase true c).1 =
      ((((c.filter (fun e => !(e.key == "all_properties"))).filter
          (fun e => !(e.key == "all_properties_meta"))).filter
          (fun e => !(matchPat "properties_location_*" e.key))).filter
          (fun e => !(matchPat "properties_price_*" e.key))).filter
          (fun e => !(matchPat "property_*" e.key)) := by
  simp only [clearDeletePhase, if_true]
  rw [deleteExactLoop_eq]
  rw [patternSweep_eq]

lemma clearDeletePhase_get (sp : Bool) (c : Cache) {k : String}
    (h1 : k ≠ "all_properties") (h2 : k ≠ "all_properties_meta")
    (hm1 : matchPat "properties_location_*" k = false)
    (hm2 : matchPat "properties_price_*" k = false)
    (hm3 : matchPat "property_*" k = false) :
    cache_get (clearDeletePhase sp c).1 k = cache_get c k := by
  cases sp
  · rw [clearDeletePhase_fst_false]
    rw [cache_get_filter_eq (by intro e he; simp [he, h2]),
      cache_get_filter_eq (by intro e he; simp [he, h1])]
  · rw [clearDeletePhase_fst_true]
    rw [cache_get_filter_eq (by intro e he; simp [he, hm3]),
      cache_get_filter_eq (by intro e he; simp [he, hm2]),
      cache_get_filter_eq (by intro e he; simp [he, hm1]),
      cache_get_filter_eq (by intro e he; simp [he, h2]),
      cache_get_filter_eq (by intro e he; simp [he, h1])]

lemma clearDeletePhase_get_exact_none (sp : Bool) (c : Cache) :
    cache_get (clearDeletePhase sp c).1 "all_properties" = none ∧
    cache_get (clearDeletePhase sp c).1 "all_properties_meta" = none := by
  have inner1 : cache_get (c.filter (fun e => !(e.key == "all_properties")))
      "all_properties" = none :=
    cache_get_filter_none (by intro e he; simp [he]) c
  cases sp
  · rw [clearDeletePhase_fst_false]
    exact ⟨cache_get_absent_filter _ _ inner1,
      cache_get_filter_none (by intro e he; simp [he]) _⟩
  · rw [clearDeletePhase_fst_true]
    constructor
    · exact cache_get_absent_filter _ _ (cache_get_absent_filter _ _
        (cache_get_absent_filter _ _ (cache_get_absent_filter _ _ inner1)))
    · exact cache_get_absent_filter _ _ (cache_get_absent_filter _ _
        (cache_get_absent_filter _ _
          (cache_get_filter_none (by intro e he; simp [he]) _)))

lemma clear_cache_eq (sp : Bool) (inst : Instance) (cr dl m2 : Bool) (c : Cache) :
    (_clear_property_cache sp inst cr dl m2 c).cache =
      cache_set
        (cache_set (clearDeletePhase sp c).1 "last_cache_invalidation"
          (.event { property_id := inst.id, property_title := inst.title,
                    action := action_type cr dl m2,
                    cache_keys_deleted := (clearDeletePhase sp c).2,
                    timestamp := some inst.updated_at }) (some 3600))
        "cache_invalidation_count" (.nat (invalidationCount c + 1)) none := by
  simp only [_clear_property_cache]
  have hc : cache_get (cache_set (clearDeletePhase sp c).1 "last_cache_invalidation"
      (.event { property_id := inst.id, property_title := inst.title,
                action := action_type cr dl m2,
                cache_keys_deleted := (clearDeletePhase sp c).2,
                timestamp := some inst.updated_at }) (some 3600))
      "cache_invalidation_count" = cache_get c "cache_invalidation_count" := by
    rw [cache_get_set_ne _ _ _ _ (by decide)]
    exact clearDeletePhase_get sp c (by decide) (by decide) (by decide) (by decide) (by decide)
  rw [hc]
  rfl

lemma clear_deleted_keys (sp : Bool) (inst : Instance) (cr dl m2 : Bool) (c : Cache) :
    (_clear_property_cache sp inst cr dl m2 c).deleted_keys = (clearDeletePhase sp c).2 := by
  simp only [_clear_property_cache]

lemma clear_count (sp : Bool) (inst : Instance) (cr dl m2 : Bool) (c : Cache) :
    invalidationCount (_clear_property_cache sp inst cr dl m2 c).cache =
      invalidationCount c + 1 := by
  rw [clear_cache_eq]
  unfold invalidationCount
  rw [cache_get_set_self]

lemma clear_last_event (sp : Bool) (inst : Instance) (cr dl m2 : Bool) (c : Cache) :
    cache_get (_clear_property_cache sp inst cr dl m2 c).cache "last_cache_invalidation" =
      some (.event { property_id := inst.id, property_title := inst.title,
                     action := action_type cr dl m2,
                     cache_keys_deleted := (clearDeletePhase sp c).2,
                     timestamp := some inst.updated_at }) := by
  rw [clear_cache_eq]
  rw [cache_get_set_ne _ _ _ _ (by decide)]
  rw [cache_get_set_self]

lemma forall_mem_filter {Q : Entry → Prop} {l : Cache} (p : Entry → Bool)
    (h : ∀ e ∈ l, Q e) : ∀ e ∈ l.filter p, Q e := by
  intro e he
  exact h e (List.mem_filter.mp he).1

lemma mem_clearDeletePhase_true {c : Cache} {e : Entry}
    (he : e ∈ (clearDeletePhase true c).1) :
    matchPat "properties_location_*" e.key = false ∧
    matchPat "properties_price_*" e.key = false ∧
    matchPat "property_*" e.key = false := by
  rw [clearDeletePhase_fst_true] at he
  have h3 := (List.mem_filter.mp he).2
  have he2 := (List.mem_filter.mp he).1
  have h2 := (List.mem_filter.mp he2).2
  have he1 := (List.mem_filter.mp he2).1
  have h1 := (List.mem_filter.mp he1).2
  exact ⟨by simpa using h1, by simpa using h2, by simpa using h3⟩

lemma noMatch_clear_cache (inst : Instance) (cr dl m2 : Bool) (c : Cache) :
    ∀ pat ∈ cache_patterns, ∀ e ∈ (_clear_property_cache true inst cr dl m2 c).cache,
      matchPat pat e.key = false := by
  intro pat hp e he
  rw [clear_cache_eq] at he
  simp only [cache_set, List.mem_cons, List.mem_filter] at he
  simp only [cache_patterns, List.mem_cons, List.not_mem_nil, or_false] at hp
  rcases he with rfl | ⟨rfl | ⟨hmem, _⟩, _⟩
  · rcases hp with rfl | rfl | rfl <;> rfl
  · rcases hp with rfl | rfl | rfl <;> rfl
  · have h := mem_clearDeletePhase_true hmem
    rcases hp with rfl | rfl | rfl
    · exact h.1
    · exact h.2.1
    · exact h.2.2

lemma clearDeletePhase_deleted_nil {c : Cache} (sp : Bool)
    (h1 : cache_get c "all_properties" = none)
    (h2 : cache_get c "all_properties_meta" = none)
    (hm : sp = true → ∀ pat ∈ cache_patterns, ∀ e ∈ c, matchPat pat e.key = false) :
    (clearDeletePhase sp c).2 = [] := by
  have hexact : exact_deleted c = [] := by
    unfold exact_deleted
    rw [h1, h2]
    rfl
  cases sp
  · simp only [clearDeletePhase, Bool.false_eq_true, if_false]
    rw [deleteExactLoop_eq]
    exact hexact
  · have hm' := hm rfl
    simp only [cache_patterns, List.mem_cons, List.not_mem_nil, or_false,
      forall_eq_or_imp, forall_eq] at hm'
    obtain ⟨hm1, hm2, hm3⟩ := hm'
    simp only [clearDeletePhase, if_true]
    rw [deleteExactLoop_eq]
    simp only [patternSweep_eq]
    rw [hexact]
    have q1 : ∀ e ∈ (c.filter (fun e => !(e.key == "all_properties"))).filter
        (fun e => !(e.key == "all_properties_meta")),
        matchPat "properties_location_*" e.key = false :=
      forall_mem_filter _ (forall_mem_filter _ hm1)
    have q2 : ∀ e ∈ ((c.filter (fun e => !(e.key == "all_properties"))).filter
        (fun e => !(e.key == "all_properties_meta"))).filter
          (fun e => !(matchPat "properties_location_*" e.key)),
        matchPat "properties_price_*" e.key = false :=
      forall_mem_filter _ (forall_mem_filter _ (forall_mem_filter _ hm2))
    have q3 : ∀ e ∈ (((c.filter (fun e => !(e.key == "all_properties"))).filter
        (fun e => !(e.key == "all_properties_meta"))).filter
          (fun e => !(matchPat "properties_location_*" e.key))).filter
          (fun e => !(matchPat "properties_price_*" e.key)),
        matchPat "property_*" e.key = false :=
      forall_mem_filter _ (forall_mem_filter _ (forall_mem_filter _ (forall_mem_filter _ hm3)))
    rw [cache_keys_nil_of q1, cache_keys_nil_of q2, cache_keys_nil_of q3]
    rfl

lemma clear_idempotent_deleted (sp : Bool) (inst inst2 : Instance)
    (cr dl m2 cr2 dl2 m22 : Bool) (c : Cache) :
    (_clear_property_cache sp inst2 cr2 dl2 m22
      (_clear_property_cache sp inst cr dl m2 c).cache).deleted_keys = [] := by
  rw [clear_deleted_keys]
  apply clearDeletePhase_deleted_nil
  · rw [clear_cache_eq, cache_get_set_ne _ _ _ _ (by decide),
      cache_get_set_ne _ _ _ _ (by decide)]
    exact (clearDeletePhase_get_exact_none sp c).1
  · rw [clear_cache_eq, cache_get_set_ne _ _ _ _ (by decide),
      cache_get_set_ne _ _ _ _ (by decide)]
    exact (clearDeletePhase_get_exact_none sp c).2
  · intro hsp
    subst hsp
    exact noMatch_clear_cache inst cr dl m2 c

lemma clearDeletePhase_get_false (c : Cache) {k : String}
    (h1 : k ≠ "all_properties") (h2 : k ≠ "all_properties_meta") :
    cache_get (clearDeletePhase false c).1 k = cache_get c k := by
  rw [clearDeletePhase_fst_false,
    cache_get_filter_eq (by intro e he; simp [he, h2]),
    cache_get_filter_eq (by intro e he; simp [he, h1])]

lemma clearDeletePhase_snd_false (c : Cache) :
    (clearDeletePhase false c).2 = exact_deleted c := by
  simp only [clearDeletePhase, Bool.false_eq_true, if_false]
  rw [deleteExactLoop_eq]

/-!
Trend lemmas.
-/

/-- The window the trend reader inspects: the last ten samples, or everything
when fewer are stored. -/
def lastTenWindow (l : List ℚ) : List ℚ :=
  if l.length ≥ 10 then l.drop (l.length - 10) else l

lemma trend_on_list (l : List ℚ) :
    get_cache_metrics_trend (mkHistoryCache l) =
      if l.isEmpty then TrendResult.no_data
      else if (lastTenWindow l).length < 2 then
        TrendResult.insufficient_data
          ((lastTenWindow l).sum / ((lastTenWindow l).length : ℚ))
      else
        TrendResult.success
          (if (lastTenWindow l).getLastD 0 - (lastTenWindow l).headD 0 > 5 then
            "improving_significantly"
           else if (lastTenWindow l).getLastD 0 - (lastTenWindow l).headD 0 > 1 then
            "improving"
           else if (lastTenWindow l).getLastD 0 - (lastTenWindow l).headD 0 < -5 then
            "declining_significantly"
           else if (lastTenWindow l).getLastD 0 - (lastTenWindow l).headD 0 < -1 then
            "declining"
           else "stable")
          ((lastTenWindow l).getLastD 0 - (lastTenWindow l).headD 0)
          ((lastTenWindow l).getLastD 0)
          ((lastTenWindow l).sum / ((lastTenWindow l).length : ℚ))
          l.length := by
  have hcomp : ∀ X : List ℚ,
      (X.map mkSample).map (fun entry => entry.hit_percentage) = X := by
    intro X
    rw [List.map_map]
    exact List.map_id' X
  have hh : readHistory (mkHistoryCache l) = l.map mkSample := rfl
  unfold get_cache_metrics_trend
  rw [hh]
  cases l with
  | nil => rfl
  | cons a t =>
    simp only [List.map_cons, List.isEmpty_cons, Bool.false_eq_true, if_false,
      List.length_cons, List.length_map]
    have hrec :
        (if t.length + 1 ≥ 10 then
            ((a :: t).map mkSample).drop (t.length + 1 - 10)
          else (a :: t).map mkSample) =
        (lastTenWindow (a :: t)).map mkSample := by
      unfold lastTenWindow
      simp only [List.length_cons]
      split
      · exact (List.map_drop _ _ _).symm
      · rfl
    simp only [List.map_cons] at hrec
    rw [hrec, hcomp]
    simp only [List.length_map]

lemma string_ne_append_meta (k : String) : k ≠ k ++ "_meta" := by
  intro h
  have h2 := congrArg String.length h
  rw [String.length_append] at h2
  have h5 : ("_meta" : String).length = 5 := rfl
  omega

/-!
Claim theorems.
-/

/-- C1, counterexample: the claim quantifies over every entity mutation, but
in the bulk-create mutation path (Property.bulk_create_with_cache_invalidation)
the all_properties cache key is deleted at trace position 0, strictly before
the commit becomes visible at trace position 2 - an invalidation initiated
before the mutation is durably committed, not through the commit hook. -/
theorem C1_bulk_create_deletes_before_commit :
    bulk_create_trace.get? 0 = some (Ev.cacheDel "all_properties") ∧
    bulk_create_trace.get? 2 = some Ev.commitVisible :=
  ⟨rfl, rfl⟩

/-- C1, amended: for every signal-driven mutation (post_save, post_delete,
and the post actions of m2m_changed), invalidation is initiated only through
the commit-then-invalidate callback: a rolled-back mutation performs no cache
operation at all, and in a committed mutation every cache operation occurs
strictly after the commit is visible. The bulk-create helper is the one
mutation path outside this guarantee. -/
theorem C1_signal_invalidation_only_after_commit
    (kind : MutKind) (sp : Bool) (inst : Instance) (c : Cache) :
    (signalMutationTrace kind sp inst c false).all (fun ev => !(ev.isCacheOp)) = true ∧
    ∃ pre post,
      signalMutationTrace kind sp inst c true = pre ++ Ev.commitVisible :: post ∧
      pre.all (fun ev => !(ev.isCacheOp)) = true :=
  ⟨rfl, ⟨[Ev.dbWrite (kindDesc kind)], (signalCallbacks kind sp inst c).flatten, rfl, rfl⟩⟩

/-- C3: the effective metrics collection operation is the second definition of
get_redis_cache_metrics, which returns None; even the shadowed first
definition discards the metrics dictionary it builds and returns the int 0 on
every connected run, although its internal ratio computation does satisfy the
claimed 0-on-0/0 behaviour. The claim describes the documented intent, not
what the code returns. -/
theorem C3_metrics_returns_none :
    get_redis_cache_metrics_effective = PyRet.pynone ∧
    (∀ info : RedisInfo, get_redis_cache_metrics_v1 (some info) = PyRet.pyint 0) ∧
    hit_ratio_calc 0 0 = 0 :=
  ⟨rfl, fun _ => rfl, rfl⟩

/-- C4: every run of _clear_property_cache records exactly one invalidation
event under last_cache_invalidation - carrying exactly the keys it deleted -
and increments cache_invalidation_count by exactly 1, for every starting
cache (including one with no keys to delete); re-running it on the already
invalidated cache deletes zero additional keys and still records exactly one
further event. -/
theorem C4_one_event_per_invalidation (sp : Bool) (inst inst2 : Instance)
    (cr dl m2 cr2 dl2 m22 : Bool) (c : Cache) :
    invalidationCount (_clear_property_cache sp inst cr dl m2 c).cache =
      invalidationCount c + 1 ∧
    cache_get (_clear_property_cache sp inst cr dl m2 c).cache "last_cache_invalidation" =
      some (.event { property_id := inst.id, property_title := inst.title,
                     action := action_type cr dl m2,
                     cache_keys_deleted := (_clear_property_cache sp inst cr dl m2 c).deleted_keys,
                     timestamp := some inst.updated_at }) ∧
    (_clear_property_cache sp inst2 cr2 dl2 m22
        (_clear_property_cache sp inst cr dl m2 c).cache).deleted_keys = [] ∧
    invalidationCount (_clear_property_cache sp inst2 cr2 dl2 m22
        (_clear_property_cache sp inst cr dl m2 c).cache).cache =
      invalidationCount c + 2 ∧
    cache_get (_clear_property_cache sp inst2 cr2 dl2 m22
        (_clear_property_cache sp inst cr dl m2 c).cache).cache "last_cache_invalidation" =
      some (.event { property_id := inst2.id, property_title := inst2.title,
                     action := action_type cr2 dl2 m22,
                     cache_keys_deleted := [],
                     timestamp := some inst2.updated_at }) := by
  have hnil := clear_idempotent_deleted sp inst inst2 cr dl m2 cr2 dl2 m22 c
  refine ⟨clear_count sp inst cr dl m2 c, ?_, hnil, ?_, ?_⟩
  · rw [clear_last_event, clear_deleted_keys]
  · rw [clear_count, clear_count]
  · have h2 := clear_last_event sp inst2 cr2 dl2 m22
      (_clear_property_cache sp inst cr dl m2 c).cache
    have hphase : (clearDeletePhase sp (_clear_property_cache sp inst cr dl m2 c).cache).2 = [] := by
      rw [← clear_deleted_keys sp inst2 cr2 dl2 m22]
      exact hnil
    rw [h2, hphase]

/-- C5, counterexample: the price-range key interpolates str() of the raw
arguments without canonicalization, so the numerically equal values 0 and 0.0
produce different keys, against the claimed canonical decimal text form. -/
theorem C5_price_key_not_canonical :
    PyNum.val (.float 0) = PyNum.val (.int 0) ∧
    priceRangeKey (.float 0) (.int 500000) ≠ priceRangeKey (.int 0) (.int 500000) ∧
    priceRangeKey (.float 0) (.int 500000) = "properties_price_0.0_500000" ∧
    priceRangeKey (.int 0) (.int 500000) = "properties_price_0_500000" := by
  refine ⟨rfl, by decide, by decide, by decide⟩

/-- C5, amended: the key scheme is deterministic per argument representation -
PriceRangeKey(0, 500000) is the fixed byte string properties_price_0_500000 on
every call, and LocationKey lower-cases and replaces spaces with underscores,
so New York and new york map to the same key; but numerically equal price
bounds in different literal forms (0 versus 0.0) yield different keys. -/
theorem C5_key_scheme_deterministic_casefold :
    priceRangeKey (.int 0) (.int 500000) = "properties_price_0_500000" ∧
    locationKey "New York" = locationKey "new york" ∧
    locationKey "New York" = "properties_location_new_york" := by
  refine ⟨by decide, by decide, by decide⟩

/-- C8: when the backend does not support pattern enumeration, the
AttributeError from cache.keys is caught: the run completes with exactly the
successful exact-key deletions recorded, the invalidation event is still
stored with those deletions, the counter still increments by one, and every
key other than the two exact keys and the two bookkeeping keys is left
untouched (the pattern sweep is skipped, not approximated). -/
theorem C8_pattern_sweep_degradation (inst : Instance) (cr dl m2 : Bool) (c : Cache) :
    (_clear_property_cache false inst cr dl m2 c).deleted_keys = exact_deleted c ∧
    cache_get (_clear_property_cache false inst cr dl m2 c).cache "last_cache_invalidation" =
      some (.event { property_id := inst.id, property_title := inst.title,
                     action := action_type cr dl m2,
                     cache_keys_deleted := exact_deleted c,
                     timestamp := some inst.updated_at }) ∧
    invalidationCount (_clear_property_cache false inst cr dl m2 c).cache =
      invalidationCount c + 1 ∧
    (∀ k : String, k ≠ "all_properties" → k ≠ "all_properties_meta" →
      k ≠ "last_cache_invalidation" → k ≠ "cache_invalidation_count" →
      cache_get (_clear_property_cache false inst cr dl m2 c).cache k = cache_get c k) := by
  refine ⟨?_, ?_, clear_count false inst cr dl m2 c, ?_⟩
  · rw [clear_deleted_keys, clearDeletePhase_snd_false]
  · rw [clear_last_event, clearDeletePhase_snd_false]
  · intro k h1 h2 hl hc
    rw [clear_cache_eq, cache_get_set_ne _ _ _ _ hc, cache_get_set_ne _ _ _ _ hl]
    exact clearDeletePhase_get_false c h1 h2

/-- C8, witness: on a cache holding one price-range entry, degraded
invalidation leaves that pattern-matching key in place. -/
theorem C8_pattern_sweep_degradation_witness :
    cache_get (_clear_property_cache false instEx true false false cacheEx).cache
      "properties_price_0_100" =
      some (.qs { query := .byPriceRange (.int 0) (.int 100), result_cache := none }) :=
  ((C8_pattern_sweep_degradation instEx true false false cacheEx).2.2.2
    "properties_price_0_100" (by decide) (by decide) (by decide) (by decide)).trans rfl

/-- C10: the effective Property.save dispatches to the second definition in
the class body, so it leaves price exactly as given - negative prices
included - and never assigns a reference_number; the clamp and the
reference-number generation of the shadowed first definition never run, as
the contrast on a negative-price instance shows. -/
theorem C10_effective_save_preserves_price_and_ref
    (now fresh_pk : Nat) (fresh_ref : String) (p : PropertyFields) :
    (Property_save now fresh_pk p).price = p.price ∧
    (Property_save now fresh_pk p).reference_number = p.reference_number ∧
    (Property_save now fresh_pk
      { pk := none, title := "t", price := -1, location := "",
        reference_number := "", updated_at := 0 }).price = -1 ∧
    (Property_save_v1 fresh_ref now fresh_pk
      { pk := none, title := "t", price := -1, location := "",
        reference_number := "", updated_at := 0 }).price = 0 := by
  refine ⟨rfl, rfl, rfl, ?_⟩
  simp [Property_save_v1, model_save]

lemma get_all_properties_miss (db : Database) (now : String) (ft : ℚ) (c : Cache)
    (h : cache_get c "all_properties" = none) :
    (get_all_properties db now ft c).2 =
      cache_set
        (cache_set c "all_properties"
          (.qs { query := .allProps, result_cache := some (evalQuery db .allProps) })
          (some 3600))
        ("all_properties" ++ "_meta")
        (.meta { cached_at := now, count := (evalQuery db .allProps).length,
                 fetch_time := ft, source := "database" })
        (some 3600) := by
  simp only [get_all_properties]
  rw [h]

lemma get_properties_by_location_miss (db : Database) (loc : String) (c : Cache)
    (h : cache_get c (locationKey loc) = none) :
    (get_properties_by_location db loc c).2 =
      cache_set c (locationKey loc)
        (.qs { query := .byLocation loc, result_cache := none }) (some 1800) := by
  simp only [get_properties_by_location]
  rw [h]

lemma get_properties_by_price_range_miss (db : Database) (mn mx : PyNum) (c : Cache)
    (h : cache_get c (priceRangeKey mn mx) = none) :
    (get_properties_by_price_range db mn mx c).2 =
      cache_set c (priceRangeKey mn mx)
        (.qs { query := .byPriceRange mn mx, result_cache := none }) (some 900) := by
  simp only [get_properties_by_price_range]
  rw [h]

lemma detail_get_object_miss (db : Database) (pk : Nat) (c : Cache) (p : PropertyRec)
    (h : cache_get c ("property_" ++ toString pk) = none)
    (hf : fetch_by_id db pk = some p) :
    PropertyDetailView_get_object db pk c =
      some (.prop p,
        cache_set c ("property_" ++ toString pk) (.prop p) (some (60 * 15))) := by
  simp only [PropertyDetailView_get_object]
  rw [h, hf]

/-- C2, counterexample: on a cache miss the by-location operation stores the
queryset object with an unpopulated result cache - a lazy query object, not a
materialized collection - even though the repository holds a matching row
that evaluation would have returned. -/
theorem C2_location_caches_lazy_queryset :
    cache_get (get_properties_by_location dbEx "Lagos" emptyCache).2
        "properties_location_lagos" =
      some (.qs { query := .byLocation "Lagos", result_cache := none }) ∧
    (cache_get (get_properties_by_location dbEx "Lagos" emptyCache).2
        "properties_location_lagos").map CacheVal.isLazyQuery = some true ∧
    evalQuery dbEx (.byLocation "Lagos") = [pEx] := by
  refine ⟨by decide, by decide, by decide⟩

/-- C2, amended: only the all-entities shape materializes before storing - on
a miss it stores the queryset with its result cache populated by list() with
exactly the repository rows at fetch time; the by-location and by-price-range
shapes store the un-evaluated queryset object, whose query re-executes when
the cached value is later iterated. -/
theorem C2_payload_evaluation_by_shape (db : Database) (now : String) (ft : ℚ)
    (c : Cache) (loc : String) (mn mx : PyNum) :
    (cache_get c "all_properties" = none →
      cache_get (get_all_properties db now ft c).2 "all_properties" =
        some (.qs { query := .allProps, result_cache := some (evalQuery db .allProps) })) ∧
    (cache_get c (locationKey loc) = none →
      cache_get (get_properties_by_location db loc c).2 (locationKey loc) =
        some (.qs { query := .byLocation loc, result_cache := none })) ∧
    (cache_get c (priceRangeKey mn mx) = none →
      cache_get (get_properties_by_price_range db mn mx c).2 (priceRangeKey mn mx) =
        some (.qs { query := .byPriceRange mn mx, result_cache := none })) := by
  refine ⟨fun h => ?_, fun h => ?_, fun h => ?_⟩
  · rw [get_all_properties_miss db now ft c h,
      cache_get_set_ne _ _ _ _ (string_ne_append_meta "all_properties"),
      cache_get_set_self]
  · rw [get_properties_by_location_miss db loc c h, cache_get_set_self]
  · rw [get_properties_by_price_range_miss db mn mx c h, cache_get_set_self]

/-- C2, witness: the amended statement evaluated on the empty cache and the
two-row sample database. -/
theorem C2_payload_evaluation_by_shape_witness :
    cache_get (get_all_properties dbEx "t0" 0 emptyCache).2 "all_properties" =
      some (.qs { query := .allProps, result_cache := some [pEx2, pEx] }) ∧
    cache_get (get_properties_by_price_range dbEx (.int 0) (.int 500000) emptyCache).2
        "properties_price_0_500000" =
      some (.qs { query := .byPriceRange (.int 0) (.int 500000), result_cache := none }) := by
  constructor
  · exact ((C2_payload_evaluation_by_shape dbEx "t0" 0 emptyCache "x" (.int 0) (.int 0)).1
      rfl).trans (by decide)
  · exact ((C2_payload_evaluation_by_shape dbEx "t0" 0 emptyCache "x" (.int 0) (.int 500000)).2.2
      rfl).trans (by decide)

/-- C6, counterexample: a cache miss on the by-location and by-price-range
shapes stores the parent entry but no metadata sidecar at all. -/
theorem C6_location_miss_writes_no_metadata :
    (cache_get (get_properties_by_location dbEx "Lagos" emptyCache).2
        "properties_location_lagos").isSome = true ∧
    cache_get (get_properties_by_location dbEx "Lagos" emptyCache).2
      "properties_location_lagos_meta" = none ∧
    (cache_get (get_properties_by_price_range dbEx (.int 0) (.int 500000) emptyCache).2
        "properties_price_0_500000").isSome = true ∧
    cache_get (get_properties_by_price_range dbEx (.int 0) (.int 500000) emptyCache).2
      "properties_price_0_500000_meta" = none := by
  refine ⟨by decide, by decide, by decide, by decide⟩

/-- C6, amended: only the all-entities shape writes the metadata sidecar
(cached_at, row count, fetch time, source) under its key plus _meta, with the
same 3600 second ttl as the parent entry; the by-location and by-price-range
miss paths write no metadata record. -/
theorem C6_metadata_only_all_shape (db : Database) (now : String) (ft : ℚ)
    (c : Cache) (loc : String) (mn mx : PyNum) :
    (cache_get c "all_properties" = none →
      cache_get (get_all_properties db now ft c).2 ("all_properties" ++ "_meta") =
        some (.meta { cached_at := now, count := (evalQuery db .allProps).length,
                      fetch_time := ft, source := "database" }) ∧
      cache_ttlOf (get_all_properties db now ft c).2 ("all_properties" ++ "_meta") =
        some (some 3600) ∧
      cache_ttlOf (get_all_properties db now ft c).2 "all_properties" = some (some 3600)) ∧
    (cache_get c (locationKey loc) = none →
      cache_get c (locationKey loc ++ "_meta") = none →
      cache_get (get_properties_by_location db loc c).2 (locationKey loc ++ "_meta") = none) ∧
    (cache_get c (priceRangeKey mn mx) = none →
      cache_get c (priceRangeKey mn mx ++ "_meta") = none →
      cache_get (get_properties_by_price_range db mn mx c).2
        (priceRangeKey mn mx ++ "_meta") = none) := by
  refine ⟨fun h => ⟨?_, ?_, ?_⟩, fun h hm => ?_, fun h hm => ?_⟩
  · rw [get_all_properties_miss db now ft c h, cache_get_set_self]
  · rw [get_all_properties_miss db now ft c h, cache_ttl_set_self]
  · rw [get_all_properties_miss db now ft c h,
      cache_ttl_set_ne _ _ _ _ (string_ne_append_meta "all_properties"),
      cache_ttl_set_self]
  · rw [get_properties_by_location_miss db loc c h,
      cache_get_set_ne _ _ _ _ (Ne.symm (string_ne_append_meta (locationKey loc)))]
    exact hm
  · rw [get_properties_by_price_range_miss db mn mx c h,
      cache_get_set_ne _ _ _ _ (Ne.symm (string_ne_append_meta (priceRangeKey mn mx)))]
    exact hm

/-- C6, witness: on the empty cache, the all-entities miss writes the sidecar
while the by-location miss leaves none. -/
theorem C6_metadata_only_all_shape_witness :
    cache_get (get_all_properties dbEx "t0" 0 emptyCache).2 "all_properties_meta" =
      some (.meta { cached_at := "t0", count := 2, fetch_time := 0, source := "database" }) ∧
    cache_get (get_properties_by_location dbEx "Lagos" emptyCache).2
      "properties_location_lagos_meta" = none := by
  have h := C6_metadata_only_all_shape dbEx "t0" 0 emptyCache "Lagos" (.int 0) (.int 500000)
  constructor
  · have e := (h.1 rfl).1
    rw [show ("all_properties" ++ "_meta") = "all_properties_meta" from by decide] at e
    exact e.trans (by decide)
  · have e := h.2.1 rfl rfl
    rw [show (locationKey "Lagos" ++ "_meta") = "properties_location_lagos_meta"
      from by decide] at e
    exact e

/-- C7, counterexample: the list view in effect is the second PropertyListView
definition, whose page cache ttl is 900 seconds, not the claimed 300; the 300
second ttl lives only in the shadowed first definition. -/
theorem C7_list_view_ttl_not_300 :
    PropertyListView_effective_dispatch_ttl = 900 ∧
    PropertyListView_effective_dispatch_ttl ≠ 300 ∧
    PropertyListView_v1_dispatch_ttl = 300 ∧
    PropertyListView_v1_queryset_ttl = 300 := by
  refine ⟨by decide, by decide, by decide, by decide⟩

/-- C7, amended: the ttls are fixed per query shape and taken from constants,
not call-time parameters: all-entities entries are stored with ttl 3600,
by-location 1800, by-price-range 900, the single-entity detail entry and its
page cache 900 - and the effective list-view page ttl is 900, because the
second PropertyListView definition (cache_page 60 * 15) shadows the first,
whose dispatch and queryset ttls were 300. -/
theorem C7_ttl_policy (db : Database) (now : String) (ft : ℚ) (c : Cache)
    (loc : String) (mn mx : PyNum) (pk : Nat) (p : PropertyRec) :
    (cache_get c "all_properties" = none →
      cache_ttlOf (get_all_properties db now ft c).2 "all_properties" = some (some 3600)) ∧
    (cache_get c (locationKey loc) = none →
      cache_ttlOf (get_properties_by_location db loc c).2 (locationKey loc) =
        some (some 1800)) ∧
    (cache_get c (priceRangeKey mn mx) = none →
      cache_ttlOf (get_properties_by_price_range db mn mx c).2 (priceRangeKey mn mx) =
        some (some 900)) ∧
    (cache_get c ("property_" ++ toString pk) = none → fetch_by_id db pk = some p →
      ∃ v c2, PropertyDetailView_get_object db pk c = some (v, c2) ∧
        cache_ttlOf c2 ("property_" ++ toString pk) = some (some 900)) ∧
    PropertyDetailView_dispatch_ttl = 900 ∧
    PropertyListView_effective_dispatch_ttl = 900 ∧
    PropertyListView_v1_dispatch_ttl = 300 := by
  refine ⟨fun h => ?_, fun h => ?_, fun h => ?_, fun h hf => ?_, rfl, rfl, rfl⟩
  · rw [get_all_properties_miss db now ft c h,
      cache_ttl_set_ne _ _ _ _ (string_ne_append_meta "all_properties"),
      cache_ttl_set_self]
  · rw [get_properties_by_location_miss db loc c h, cache_ttl_set_self]
  · rw [get_properties_by_price_range_miss db mn mx c h, cache_ttl_set_self]
  · exact ⟨.prop p, _, detail_get_object_miss db pk c p h hf, cache_ttl_set_self _ _ _ _⟩

/-- C7, witness: each shape evaluated on the empty cache and sample data. -/
theorem C7_ttl_policy_witness :
    cache_ttlOf (get_all_properties dbEx "t0" 0 emptyCache).2 "all_properties" =
      some (some 3600) ∧
    cache_ttlOf (get_properties_by_location dbEx "Lagos" emptyCache).2
      "properties_location_lagos" = some (some 1800) ∧
    cache_ttlOf (get_properties_by_price_range dbEx (.int 0) (.int 500000) emptyCache).2
      "properties_price_0_500000" = some (some 900) ∧
    (∃ v c2, PropertyDetailView_get_object dbEx 1 emptyCache = some (v, c2) ∧
      cache_ttlOf c2 "property_1" = some (some 900)) := by
  have h := C7_ttl_policy dbEx "t0" 0 emptyCache "Lagos" (.int 0) (.int 500000) 1 pEx
  refine ⟨h.1 rfl, ?_, ?_, ?_⟩
  · have e := h.2.1 rfl
    rw [show locationKey "Lagos" = "properties_location_lagos" from by decide] at e
    exact e
  · have e := h.2.2.1 rfl
    rw [show priceRangeKey (.int 0) (.int 500000) = "properties_price_0_500000"
      from by decide] at e
    exact e
  · have e := h.2.2.2.1 rfl (by decide)
    rw [show ("property_" ++ toString (1 : Nat)) = "property_1" from by decide] at e
    exact e

/-- C9: the trend operation compares the oldest and newest of the last ten
samples; a single sample yields the insufficient-data result carrying that
sample as its average rather than an error, the sample pairs 60,62 and 60,70
classify as improving and improving_significantly, and for every history of
at least two samples the result is the success record whose label follows the
claimed threshold chain on delta = newest - oldest of the window. -/
theorem C9_trend_classification :
    (∀ x : ℚ, get_cache_metrics_trend (mkHistoryCache [x]) =
      TrendResult.insufficient_data x) ∧
    get_cache_metrics_trend (mkHistoryCache [60, 62]) =
      TrendResult.success "improving" 2 62 61 2 ∧
    get_cache_metrics_trend (mkHistoryCache [60, 70]) =
      TrendResult.success "improving_significantly" 10 70 65 2 ∧
    (∀ l : List ℚ, 2 ≤ l.length →
      get_cache_metrics_trend (mkHistoryCache l) =
        TrendResult.success
          (if (lastTenWindow l).getLastD 0 - (lastTenWindow l).headD 0 > 5 then
            "improving_significantly"
           else if (lastTenWindow l).getLastD 0 - (lastTenWindow l).headD 0 > 1 then
            "improving"
           else if (lastTenWindow l).getLastD 0 - (lastTenWindow l).headD 0 < -5 then
            "declining_significantly"
           else if (lastTenWindow l).getLastD 0 - (lastTenWindow l).headD 0 < -1 then
            "declining"
           else "stable")
          ((lastTenWindow l).getLastD 0 - (lastTenWindow l).headD 0)
          ((lastTenWindow l).getLastD 0)
          ((lastTenWindow l).sum / ((lastTenWindow l).length : ℚ))
          l.length) := by
  refine ⟨?_, ?_, ?_, ?_⟩
  · intro x
    rw [trend_on_list]
    norm_num [lastTenWindow]
  · rw [trend_on_list]
    norm_num [lastTenWindow]
  · rw [trend_on_list]
    norm_num [lastTenWindow]
  · intro l hl
    have hne : l.isEmpty = false := by
      cases l
      · simp at hl
      · rfl
    have hlen : ¬ ((lastTenWindow l).length < 2) := by
      unfold lastTenWindow
      split
      · rw [List.length_drop]
        omega
      · omega
    rw [trend_on_list]
    simp [hne, hlen]

/-- C9, witness: the general classification applied to the pair 50, 58, whose
delta 8 exceeds the significant threshold. -/
theorem C9_trend_classification_witness :
    get_cache_metrics_trend (mkHistoryCache [50, 58]) =
      TrendResult.success "improving_significantly" 8 58 54 2 := by
  rw [C9_trend_classification.2.2.2 [50, 58] (by norm_num)]
  norm_num [lastTenWindow]
